import Mathlib

set_option maxHeartbeats 1000000

/-!
Shallow embedding of the content-to-slide-deck pipeline and deck renderer of the
AI presentation maker backend (Node.js sources under src/backend).  Pure JavaScript
functions are translated to Lean functions over `List Char` / `String`; the regex
replacements of the text cleaner are implemented as explicit character scans with
the same semantics.  Network effects (image downloads, the generative service) are
modelled as explicit function parameters (oracles).
-/

/-- Whitespace characters removed by the JavaScript `String.prototype.trim`
(ASCII subset, which covers every string produced by this code base). -/
def isJsWs (c : Char) : Bool :=
  c == ' ' || c == '\t' || c == '\n' || c == '\r' || c == '\x0b' || c == '\x0c'

/-- JavaScript `s.trim()` on a character list: drop whitespace at both ends. -/
def jsTrim (l : List Char) : List Char :=
  ((l.dropWhile isJsWs).reverse.dropWhile isJsWs).reverse

/-- Prepend a character onto the first chunk of a chunk list (helper used by the
splitting functions, which mirror JavaScript `String.prototype.split`). -/
def consHead (c : Char) : List (List Char) → List (List Char)
  | [] => [[c]]
  | l :: ls => (c :: l) :: ls

/-- Prepend several characters onto the first chunk. -/
def prependChars (cs : List Char) (r : List (List Char)) : List (List Char) :=
  cs.foldr consHead r

/-- Emit a run of `k` newlines after the regex replace `\n{3,} -> \n\n`:
runs of three or more newlines collapse to exactly two. -/
def nlRun (k : Nat) : List Char :=
  if 3 ≤ k then ['\n', '\n'] else List.replicate k '\n'

/-- Scanner for `replace(/\n{3,}/g, '\n\n')`; `k` counts pending newlines. -/
def collapseNlGo : Nat → List Char → List Char
  | k, [] => nlRun k
  | k, c :: rest =>
    if c = '\n' then collapseNlGo (k + 1) rest
    else nlRun k ++ c :: collapseNlGo 0 rest

/-- `text.replace(/\n{3,}/g, '\n\n')` from `cleanExtractedText`. -/
def collapseNl (l : List Char) : List Char := collapseNlGo 0 l

/-- Characters matched by the character class `[ \t]`. -/
def isSpaceTab (c : Char) : Bool := c == ' ' || c == '\t'

/-- Emit the replacement for a pending space/tab run (empty or one space). -/
def spRun (pending : Bool) : List Char := if pending then [' '] else []

/-- Scanner for `replace(/[ \t]+/g, ' ')`; `pending` records an open run. -/
def collapseSpacesGo : Bool → List Char → List Char
  | pending, [] => spRun pending
  | pending, c :: rest =>
    if isSpaceTab c then collapseSpacesGo true rest
    else spRun pending ++ c :: collapseSpacesGo false rest

/-- `text.replace(/[ \t]+/g, ' ')` from `cleanExtractedText`. -/
def collapseSpaces (l : List Char) : List Char := collapseSpacesGo false l

/-- Characters matched by the regex class `\w` (ASCII word characters). -/
def isWordChar (c : Char) : Bool := c.isAlphanum || c == '_'

/-- `text.replace(/(\w)-\n(\w)/g, '$1$2')`: rejoin hyphen-broken words.  The
global regex resumes scanning after each match, exactly as this scan does. -/
def hyphenFix : List Char → List Char
  | [] => []
  | [a] => [a]
  | [a, b] => [a, b]
  | [a, b, c] => [a, b, c]
  | a :: b :: c :: d :: rest =>
    if isWordChar a ∧ b = '-' ∧ c = '\n' ∧ isWordChar d then
      a :: d :: hyphenFix rest
    else
      a :: hyphenFix (b :: c :: d :: rest)

/-- `text.replace(/\f/g, '\n\n')`: each form feed becomes a paragraph break. -/
def formFeedFix : List Char → List Char
  | [] => []
  | c :: rest =>
    if c = '\x0c' then '\n' :: '\n' :: formFeedFix rest
    else c :: formFeedFix rest

/-- JavaScript `text.split('\n')` on a character list. -/
def splitNlL : List Char → List (List Char)
  | [] => [[]]
  | c :: rest =>
    if c = '\n' then [] :: splitNlL rest
    else consHead c (splitNlL rest)

/-- JavaScript `lines.join('\n')`. -/
def joinNl : List (List Char) → List Char
  | [] => []
  | [l] => l
  | l :: l2 :: ls => l ++ '\n' :: joinNl (l2 :: ls)

/-- The full cleaning pipeline of `cleanExtractedText` (pdfHandler.js), on
character lists: collapse newline runs, collapse space runs, rejoin hyphenated
words, expand form feeds, trim every line, then trim the whole text. -/
def cleanChars (l : List Char) : List Char :=
  jsTrim (joinNl ((splitNlL (formFeedFix (hyphenFix (collapseSpaces (collapseNl l))))).map jsTrim))

/-- `cleanExtractedText(text)` from pdfHandler.js (the `if (!text) return ''`
guard is the identity on the empty string, which the pipeline also maps to itself). -/
def cleanExtractedText (text : String) : String :=
  (cleanChars text.toList).asString

/-- A slide of the presentation data model (`slideTitle`, `points`,
optional `imageKeyword` and `imageUrl`). -/
structure SlideB where
  slideTitle : String
  points : List String
  imageKeyword : Option String
  imageUrl : Option String
deriving DecidableEq, Repr

/-- A presentation: title plus ordered slides. -/
structure Presentation where
  title : String
  slides : List SlideB
deriving DecidableEq, Repr

/-- Sentence terminators of the classes `[.!?]` / `[.!?]+`. -/
def isTermCh (c : Char) : Bool := c == '.' || c == '!' || c == '?'

/-- JavaScript `p.split(/[.!?]+/)`: maximal runs of terminators separate the
sentences; `pending` records that a separator run is open. -/
def splitSentsGo : Bool → List Char → List (List Char)
  | pending, [] => if pending then [[], []] else [[]]
  | pending, c :: rest =>
    if isTermCh c then splitSentsGo true rest
    else if pending then [] :: consHead c (splitSentsGo false rest)
    else consHead c (splitSentsGo false rest)

/-- `p.split(/[.!?]+/)`. -/
def splitSents (l : List Char) : List (List Char) := splitSentsGo false l

/-- JavaScript `cleanText.split(/\n\n+/)`: maximal runs of two or more newlines
separate paragraphs; `k` counts the pending newline run. -/
def splitParasGo : Nat → List Char → List (List Char)
  | k, [] => if 2 ≤ k then [[], []] else [List.replicate k '\n']
  | k, c :: rest =>
    if c = '\n' then splitParasGo (k + 1) rest
    else if 2 ≤ k then [] :: consHead c (splitParasGo 0 rest)
    else prependChars (List.replicate k '\n') (consHead c (splitParasGo 0 rest))

/-- `cleanText.split(/\n\n+/)`. -/
def splitParas (l : List Char) : List (List Char) := splitParasGo 0 l

/-- Sentences contributed by one paragraph in `textToBasicSlides`:
`p.split(/[.!?]+/).filter(s => s.trim().length > 10)` capped at 5. -/
def sentencesOfPara (p : List Char) : List (List Char) :=
  ((splitSents p).filter (fun s => 10 < (jsTrim s).length)).take 5

/-- Bullet points of a paragraph group in `textToBasicSlides`: flat-map the
sentence extraction over the group, cap at 5 and trim each point. -/
def pointsForGroup (g : List (List Char)) : List String :=
  (((g.map sentencesOfPara).foldr (· ++ ·) []).take 5).map (fun s => (jsTrim s).asString)

/-- Slide title of a paragraph group in `textToBasicSlides`: the text of the
first paragraph before the first `.`/`!`/`?` if its length is strictly between
10 and 100, else the synthesized section title. -/
def titleForGroup (firstPara : List Char) (currentSlide : Nat) : String :=
  let firstSentence := firstPara.takeWhile (fun c => !isTermCh c)
  if 10 < firstSentence.length ∧ firstSentence.length < 100 then
    (jsTrim firstSentence).asString
  else
    "Section " ++ toString currentSlide

/-- The slide-building loop of `textToBasicSlides` over the paragraph groups:
stops when `remaining` (the slide budget) is exhausted, pushes a slide per group
with nonempty points, and counts `currentSlide` up on every iteration. -/
def slidesFromGroups : List (List (List Char)) → Nat → Nat → List SlideB
  | [], _, _ => []
  | g :: gs, currentSlide, remaining =>
    if remaining = 0 then []
    else
      let pts := pointsForGroup g
      let rest := slidesFromGroups gs (currentSlide + 1)
        (if pts.isEmpty then remaining else remaining - 1)
      if pts.isEmpty then rest
      else SlideB.mk (titleForGroup (g.headD []) currentSlide) pts none none :: rest

/-- Consecutive `slice(i, i + stride)` groups of the paragraph list (the loop
`for (i = 0; ...; i += paragraphsPerSlide)`); totalized with a fuel argument
that is always at least the list length at the call site. -/
def chunkListGo (stride : Nat) : Nat → List (List Char) → List (List (List Char))
  | 0, _ => []
  | _, [] => []
  | fuel + 1, p :: ps =>
    (p :: ps.take (stride - 1)) :: chunkListGo stride fuel (ps.drop (stride - 1))

/-- Paragraph groups in stride order. -/
def chunkList (stride : Nat) (l : List (List Char)) : List (List (List Char)) :=
  chunkListGo stride l.length l

/-- `textToBasicSlides(text, slideCount)` from pdfHandler.js: clean the text,
split into paragraphs longer than 20 characters (after trim), walk them in
stride `ceil(paragraphs / slideCount)` to build up to `slideCount` slides, and
emit the single Content Overview slide when no slide was produced. -/
def textToBasicSlides (text : String) (slideCount : Nat) : Presentation :=
  let cleanText := cleanChars text.toList
  let paragraphs := (splitParas cleanText).filter (fun p => 20 < (jsTrim p).length)
  let paragraphsPerSlide := (paragraphs.length + slideCount - 1) / slideCount
  let slides := slidesFromGroups (chunkList paragraphsPerSlide paragraphs) 1 slideCount
  let finalSlides :=
    if slides.isEmpty then
      [SlideB.mk "Content Overview" [(cleanText.take 200).asString ++ "..."] none none]
    else slides
  Presentation.mk "Extracted Content" finalSlides

/-- The slide-count validation line shared by the generation endpoints:
`Math.min(Math.max(parseInt(slideCount) || 5, 1), 20)`.  The argument is the
result of `parseInt` (`none` for `NaN`, i.e. a missing or non-numeric value);
`0` is falsy in JavaScript, so `0 || 5` yields 5 before the clamp. -/
def validateSlideCount (parsed : Option Int) : Int :=
  let v : Int :=
    match parsed with
    | none => 5
    | some n => if n = 0 then 5 else n
  min (max v 1) 20

/-- JavaScript `hay.includes(needle)`: substring containment, true for the
empty needle. -/
def subOccurs (needle : List Char) : List Char → Bool
  | [] => needle.isEmpty
  | b :: bs => needle.isPrefixOf (b :: bs) || subOccurs needle bs

/-- `lowerKeyword.includes(key)` on strings. -/
def strIncludes (hay needle : String) : Bool :=
  subOccurs needle.toList hay.toList

/-- ASCII lower-casing, JavaScript `toLowerCase` on the keyword strings used here. -/
def jsToLower (s : String) : String :=
  (s.toList.map Char.toLower).asString

/-- Characters of the regex class `[a-zA-Z0-9\s]` (kept by the keyword cleaner). -/
def isKeywordKeep (c : Char) : Bool :=
  (c.isAlphanum && c.toNat < 128) || isJsWs c

/-- `keyword.replace(/[^a-zA-Z0-9\s]/g, '').trim()` from `fetchImageForSlide`. -/
def cleanKeywordOf (keyword : String) : String :=
  (jsTrim (keyword.toList.filter isKeywordKeep)).asString

/-- Unsigned 32-bit view of a JavaScript number used as a shift operand. -/
def asUint32 (n : Int) : Nat := (n % (4294967296 : Int)).toNat

/-- Signed 32-bit view (JavaScript `ToInt32`). -/
def asInt32 (n : Int) : Int :=
  let u := asUint32 n
  if u < 2147483648 then (u : Int) else (u : Int) - 4294967296

/-- JavaScript `hash << 5`: `ToInt32` the operand, shift with 32-bit wrap. -/
def jsShl5 (h : Int) : Int := asInt32 ((asUint32 h) * 32)

/-- One step of the keyword hash: `((hash << 5) - hash) + char.charCodeAt(0)`. -/
def jsCharHashStep (hash : Int) (c : Char) : Int :=
  jsShl5 hash - hash + (c.toNat : Int)

/-- `cleanKeyword.toLowerCase().split('').reduce(..., 0)` from `fetchImageForSlide`. -/
def keywordHashOf (cleanKeyword : String) : Int :=
  (jsToLower cleanKeyword).toList.foldl jsCharHashStep 0

/-- The ordered topic table `imageMapping` of `fetchImageForSlide` (config/ai.js),
in object-declaration order, which `Object.entries` preserves. -/
def imageMapping : List (String × String) :=
  [("network", "https://images.unsplash.com/photo-1558494949-ef010cbdcc31?w=1920&h=1080&fit=crop&q=80"),
   ("technology", "https://images.unsplash.com/photo-1518770660439-4636190af475?w=1920&h=1080&fit=crop&q=80"),
   ("computer", "https://images.unsplash.com/photo-1496181133206-80ce9b88a853?w=1920&h=1080&fit=crop&q=80"),
   ("data", "https://images.unsplash.com/photo-1551288049-bebda4e38f71?w=1920&h=1080&fit=crop&q=80"),
   ("server", "https://images.unsplash.com/photo-1558494949-ef010cbdcc31?w=1920&h=1080&fit=crop&q=80"),
   ("cable", "https://images.unsplash.com/photo-1544197150-b99a580bb7a8?w=1920&h=1080&fit=crop&q=80"),
   ("fiber", "https://images.unsplash.com/photo-1516044734145-07ca8eef8731?w=1920&h=1080&fit=crop&q=80"),
   ("wireless", "https://images.unsplash.com/photo-1562408590-e32931084e23?w=1920&h=1080&fit=crop&q=80"),
   ("signal", "https://images.unsplash.com/photo-1606765962248-7ff407b51667?w=1920&h=1080&fit=crop&q=80"),
   ("security", "https://images.unsplash.com/photo-1555949963-ff9fe0c870eb?w=1920&h=1080&fit=crop&q=80"),
   ("cloud", "https://images.unsplash.com/photo-1544197150-b99a580bb7a8?w=1920&h=1080&fit=crop&q=80"),
   ("internet", "https://images.unsplash.com/photo-1451187580459-43490279c0fa?w=1920&h=1080&fit=crop&q=80"),
   ("communication", "https://images.unsplash.com/photo-1516321318423-f06f85e504b3?w=1920&h=1080&fit=crop&q=80"),
   ("digital", "https://images.unsplash.com/photo-1550751827-4bd374c3f58b?w=1920&h=1080&fit=crop&q=80"),
   ("hardware", "https://images.unsplash.com/photo-1591799264318-7e6ef8ddb7ea?w=1920&h=1080&fit=crop&q=80"),
   ("infrastructure", "https://images.unsplash.com/photo-1558494949-ef010cbdcc31?w=1920&h=1080&fit=crop&q=80"),
   ("transmission", "https://images.unsplash.com/photo-1544197150-b99a580bb7a8?w=1920&h=1080&fit=crop&q=80"),
   ("physical", "https://images.unsplash.com/photo-1558494949-ef010cbdcc31?w=1920&h=1080&fit=crop&q=80"),
   ("layer", "https://images.unsplash.com/photo-1558494949-ef010cbdcc31?w=1920&h=1080&fit=crop&q=80"),
   ("protocol", "https://images.unsplash.com/photo-1550751827-4bd374c3f58b?w=1920&h=1080&fit=crop&q=80"),
   ("business", "https://images.unsplash.com/photo-1507003211169-0a1dd7228f2d?w=1920&h=1080&fit=crop&q=80"),
   ("team", "https://images.unsplash.com/photo-1522071820081-009f0129c71c?w=1920&h=1080&fit=crop&q=80"),
   ("challenge", "https://images.unsplash.com/photo-1454165804606-c3d57bc86b40?w=1920&h=1080&fit=crop&q=80"),
   ("solution", "https://images.unsplash.com/photo-1552664730-d307ca884978?w=1920&h=1080&fit=crop&q=80"),
   ("future", "https://images.unsplash.com/photo-1451187580459-43490279c0fa?w=1920&h=1080&fit=crop&q=80"),
   ("innovation", "https://images.unsplash.com/photo-1485827404703-89b55fcc595e?w=1920&h=1080&fit=crop&q=80"),
   ("ai", "https://images.unsplash.com/photo-1677442136019-21780ecad995?w=1920&h=1080&fit=crop&q=80"),
   ("machine", "https://images.unsplash.com/photo-1555255707-c07966088b7b?w=1920&h=1080&fit=crop&q=80"),
   ("education", "https://images.unsplash.com/photo-1503676260728-1c00da094a0b?w=1920&h=1080&fit=crop&q=80"),
   ("research", "https://images.unsplash.com/photo-1532094349884-543bc11b234d?w=1920&h=1080&fit=crop&q=80")]

/-- The curated fallback pool `fallbackImages` of `fetchImageForSlide`. -/
def fallbackImages : List String :=
  ["https://images.unsplash.com/photo-1558494949-ef010cbdcc31?w=1920&h=1080&fit=crop&q=80",
   "https://images.unsplash.com/photo-1518770660439-4636190af475?w=1920&h=1080&fit=crop&q=80",
   "https://images.unsplash.com/photo-1544197150-b99a580bb7a8?w=1920&h=1080&fit=crop&q=80",
   "https://images.unsplash.com/photo-1451187580459-43490279c0fa?w=1920&h=1080&fit=crop&q=80",
   "https://images.unsplash.com/photo-1550751827-4bd374c3f58b?w=1920&h=1080&fit=crop&q=80",
   "https://images.unsplash.com/photo-1551288049-bebda4e38f71?w=1920&h=1080&fit=crop&q=80",
   "https://images.unsplash.com/photo-1516321318423-f06f85e504b3?w=1920&h=1080&fit=crop&q=80",
   "https://images.unsplash.com/photo-1555949963-ff9fe0c870eb?w=1920&h=1080&fit=crop&q=80"]

/-- The topic-table scan of `fetchImageForSlide`: first entry, in declaration
order, whose key occurs as a substring of the lowercased clean keyword. -/
def findMappedImage (lowerKeyword : String) : Option String :=
  (imageMapping.find? (fun kv => strIncludes lowerKeyword kv.1)).map (fun kv => kv.2)

/-- `fetchImageForSlide(keyword)` from config/ai.js: clean and lowercase the
keyword, return the first topic-table match, else pick from the fallback pool
by `Math.abs(keywordHash) % fallbackImages.length`. -/
def fetchImageForSlide (keyword : String) : String :=
  let cleanKeyword := cleanKeywordOf keyword
  let keywordHash := keywordHashOf cleanKeyword
  let lowerKeyword := jsToLower cleanKeyword
  match findMappedImage lowerKeyword with
  | some url => url
  | none => fallbackImages.getD (keywordHash.natAbs % fallbackImages.length) ""

/-- The closed layout enumeration `SLIDE_LAYOUTS` of the premium exporter. -/
inductive SlideLayout where
  | titleFullImage
  | splitLeftImage
  | splitRightImage
  | fullWidthTopImage
  | conceptImageDominant
  | gradientBackground
  | summaryClean
deriving DecidableEq, Repr

/-- The truthiness test `slideData.imageUrl && slideData.imageUrl.length > 0`. -/
def hasImageB (s : SlideB) : Bool :=
  match s.imageUrl with
  | some u => 0 < u.length
  | none => false

/-- `determineSlideLayout(index, totalSlides, slideData)` from the premium
exporter: title slide, summary slide, concept slide for at most 3 points with
an image, alternating split layouts otherwise with an image, gradient without. -/
def determineSlideLayout (index totalSlides : Nat) (slideData : SlideB) : SlideLayout :=
  let hasImage := hasImageB slideData
  let pointCount := slideData.points.length
  if index = 0 then .titleFullImage
  else if index = totalSlides - 1 then .summaryClean
  else if hasImage ∧ pointCount ≤ 3 then .conceptImageDominant
  else if hasImage then (if index % 2 = 0 then .splitRightImage else .splitLeftImage)
  else .gradientBackground

/-- The layout-selection policy exactly as the specification words it: a pure
function of slide index, total slide count, resolved-image presence and bullet
count, evaluated in the fixed priority order of spec section 4.5. -/
def layoutPolicySpec (index totalSlides : Nat) (hasImage : Bool) (pointCount : Nat) :
    SlideLayout :=
  if index = 0 then .titleFullImage
  else if index = totalSlides - 1 then .summaryClean
  else if hasImage ∧ pointCount ≤ 3 then .conceptImageDominant
  else if hasImage then (if index % 2 = 0 then .splitRightImage else .splitLeftImage)
  else .gradientBackground

/-- Background specification of a theme: the premium themes use two-color
gradients; the branch structure of the exporter also handles a plain color. -/
inductive ThemeBg where
  | gradient (c0 c1 : String)
  | solid (color : String)
deriving DecidableEq, Repr

/-- A theme record of the premium `THEMES` registry. -/
structure Theme where
  themeLabel : String
  background : ThemeBg
  titleColor : String
  textColor : String
  accentColor : String
  bulletColor : String
  overlayColor : String
  overlayOpacity : Rat
  secondaryAccent : String
deriving DecidableEq, Repr

/-- `THEMES.professional`. -/
def professionalTheme : Theme :=
  Theme.mk "Professional" (ThemeBg.gradient "F8FAFC" "E2E8F0")
    "1E293B" "475569" "3B82F6" "3B82F6" "0F172A" 0.7 "60A5FA"

/-- `THEMES.dark`. -/
def darkTheme : Theme :=
  Theme.mk "Dark Mode Pro" (ThemeBg.gradient "0F0F23" "1A1A3E")
    "FFFFFF" "CBD5E1" "06B6D4" "22D3EE" "000000" 0.6 "67E8F9"

/-- `THEMES.modern`. -/
def modernTheme : Theme :=
  Theme.mk "Modern Minimal" (ThemeBg.gradient "FAFAFA" "F5F5F5")
    "18181B" "52525B" "7C3AED" "8B5CF6" "1E1B4B" 0.75 "A78BFA"

/-- `THEMES.nature`. -/
def natureTheme : Theme :=
  Theme.mk "Nature Fresh" (ThemeBg.gradient "ECFDF5" "D1FAE5")
    "064E3B" "047857" "10B981" "34D399" "022C22" 0.7 "6EE7B7"

/-- `THEMES.corporate`. -/
def corporateTheme : Theme :=
  Theme.mk "Corporate Elite" (ThemeBg.gradient "F0F9FF" "E0F2FE")
    "0C4A6E" "0369A1" "0284C7" "0EA5E9" "082F49" 0.75 "38BDF8"

/-- `THEMES.sunset`. -/
def sunsetTheme : Theme :=
  Theme.mk "Sunset Vibes" (ThemeBg.gradient "FFF7ED" "FFEDD5")
    "7C2D12" "9A3412" "EA580C" "F97316" "431407" 0.7 "FB923C"

/-- `THEMES.royal`. -/
def royalTheme : Theme :=
  Theme.mk "Royal Purple" (ThemeBg.gradient "FAF5FF" "F3E8FF")
    "581C87" "7E22CE" "9333EA" "A855F7" "3B0764" 0.75 "C084FC"

/-- Own keys of the `THEMES` object literal, in declaration order. -/
def THEMES : List (String × Theme) :=
  [("professional", professionalTheme), ("dark", darkTheme), ("modern", modernTheme),
   ("nature", natureTheme), ("corporate", corporateTheme), ("sunset", sunsetTheme),
   ("royal", royalTheme)]

/-- Own property names of `Object.prototype`.  A JavaScript property read
`THEMES[themeName]` falls through to the prototype chain, so these names
produce the inherited (truthy) function or prototype object instead of
`undefined`, and the `|| THEMES.professional` fallback is skipped. -/
def objectProtoProps : List String :=
  ["constructor", "hasOwnProperty", "isPrototypeOf", "propertyIsEnumerable",
   "toLocaleString", "toString", "valueOf", "__defineGetter__", "__defineSetter__",
   "__lookupGetter__", "__lookupSetter__", "__proto__"]

/-- `const theme = THEMES[themeName] || THEMES.professional` with JavaScript
property-lookup semantics.  For a name inherited from `Object.prototype` the
lookup yields a truthy non-theme value, `theme.background` is then `undefined`,
and the first `addGradientBackground` call raises
`TypeError: Cannot read properties of undefined (reading type)`; the render
always reaches such a call (at the latest on the closing slide), so the model
reports the error at resolution time. -/
def resolveThemeJs (themeName : String) : Except String Theme :=
  match (THEMES.find? (fun kv => kv.1 == themeName)).map (fun kv => kv.2) with
  | some t => Except.ok t
  | none =>
    if themeName ∈ objectProtoProps then
      Except.error "TypeError: Cannot read properties of undefined (reading type)"
    else
      Except.ok professionalTheme

/-- A downloaded image as returned by `downloadImageAsBase64`: base64 payload
plus `png`/`jpeg` tag.  A failed or timed-out download is `none` (the function
catches every error and returns `null`). -/
structure ImgData where
  data : String
  imageType : String
deriving DecidableEq, Repr

/-- The data-URI prefix built for `slide.addImage`. -/
def imgDataUri (img : ImgData) : String :=
  "image/" ++ img.imageType ++ ";base64," ++ img.data

/-- A width/height value passed to pptxgenjs: either a percentage string or an
absolute length in inches. -/
inductive Dim where
  | pct (n : Nat)
  | len (q : Rat)
deriving DecidableEq, Repr

/-- Observable elements added to one rendered slide, in call order: background
assignment, shapes, images, plain text and bulleted text boxes. -/
inductive SlideElem where
  | background (color : String)
  | shape (kind : String) (x y : Rat) (w h : Dim) (color : String) (transparency : Option Rat)
  | image (dataUri : String) (x y w h : Rat)
  | text (content : String) (x y w h : Rat) (fontSize : Rat) (color : String)
  | bullets (pts : List String) (x y w h : Rat) (fontSize : Rat) (color : String)
      (numbered : Bool)
deriving DecidableEq, Repr

/-- `addGradientBackground(slide, theme)`: background color plus a translucent
overlay rectangle for gradient themes, plain background otherwise. -/
def addGradientBackground (theme : Theme) : List SlideElem :=
  match theme.background with
  | ThemeBg.gradient c0 c1 =>
    [SlideElem.background c0,
     SlideElem.shape "rect" 0 0 (Dim.pct 100) (Dim.pct 100) c1 (some 50)]
  | ThemeBg.solid c => [SlideElem.background c]

/-- `addAccentShapes(slide, theme, position)`. -/
def addAccentShapes (theme : Theme) (position : String) : List SlideElem :=
  if position = "top" then
    [SlideElem.shape "rect" 0 0 (Dim.pct 100) (Dim.len 0.06) theme.accentColor none]
  else if position = "bottom" then
    [SlideElem.shape "rect" 0 7.2 (Dim.pct 100) (Dim.len 0.3) theme.accentColor (some 80)]
  else if position = "corner" then
    [SlideElem.shape "rect" 0 0 (Dim.len 0.15) (Dim.len 2) theme.accentColor none]
  else if position = "circle" then
    [SlideElem.shape "ellipse" 11.5 (-1) (Dim.len 3) (Dim.len 3) theme.secondaryAccent (some 85)]
  else []

/-- `slideData.slideTitle || "Slide " + (index + 1)`. -/
def slideTitleOr (s : SlideB) (index : Nat) : String :=
  if s.slideTitle.length = 0 then "Slide " ++ toString (index + 1) else s.slideTitle

/-- First color of the theme background, `'FFFFFF'` when it is not a gradient
(`theme.background.colors ? theme.background.colors[0] : 'FFFFFF'`). -/
def bgColor0 (theme : Theme) : String :=
  match theme.background with
  | ThemeBg.gradient c0 _ => c0
  | ThemeBg.solid _ => "FFFFFF"

/-- `createSplitRightImageSlide`: text on the left, image (when downloaded) on
the right with a fade rectangle. -/
def createSplitRightImageSlide (slideData : SlideB) (imageData : Option ImgData)
    (theme : Theme) (index : Nat) : List SlideElem :=
  [SlideElem.background (bgColor0 theme),
   SlideElem.shape "rect" 0 0 (Dim.len 0.1) (Dim.len 7.5) theme.accentColor none,
   SlideElem.text (slideTitleOr slideData index) 0.5 0.5 5.5 1.0 32 theme.titleColor,
   SlideElem.shape "rect" 0.5 1.5 (Dim.len 2.5) (Dim.len 0.05) theme.accentColor none,
   SlideElem.bullets slideData.points 0.5 1.8 5.5 5.2 16 theme.textColor false] ++
  (match imageData with
   | some img =>
     [SlideElem.image (imgDataUri img) 6.33 0 7 7.5,
      SlideElem.shape "rect" 6.33 0 (Dim.len 1.5) (Dim.len 7.5) (bgColor0 theme) (some 70)]
   | none => [])

/-- `createSplitLeftImageSlide`: image (when downloaded) on the left, text on
the right. -/
def createSplitLeftImageSlide (slideData : SlideB) (imageData : Option ImgData)
    (theme : Theme) (index : Nat) : List SlideElem :=
  SlideElem.background (bgColor0 theme) ::
  ((match imageData with
    | some img =>
      [SlideElem.image (imgDataUri img) 0 0 7 7.5,
       SlideElem.shape "rect" 5.5 0 (Dim.len 1.5) (Dim.len 7.5) (bgColor0 theme) (some 70)]
    | none => []) ++
   [SlideElem.shape "rect" 13.23 0 (Dim.len 0.1) (Dim.len 7.5) theme.accentColor none,
    SlideElem.text (slideTitleOr slideData index) 7.3 0.5 5.5 1.0 32 theme.titleColor,
    SlideElem.shape "rect" 7.3 1.5 (Dim.len 2.5) (Dim.len 0.05) theme.accentColor none,
    SlideElem.bullets slideData.points 7.3 1.8 5.5 5.2 16 theme.textColor false])

/-- `createConceptDominantSlide`: full-bleed image with overlays (or the theme
gradient), large bottom title, at most three overlay points, accent line. -/
def createConceptDominantSlide (slideData : SlideB) (imageData : Option ImgData)
    (theme : Theme) (index : Nat) : List SlideElem :=
  (match imageData with
   | some img =>
     [SlideElem.image (imgDataUri img) 0 0 13.33 7.5,
      SlideElem.shape "rect" 0 4.5 (Dim.len 13.33) (Dim.len 3) theme.overlayColor (some 25),
      SlideElem.shape "rect" 0 0 (Dim.len 13.33) (Dim.len 7.5) "000000" (some 70)]
   | none => addGradientBackground theme) ++
  [SlideElem.text (slideTitleOr slideData index) 0.8 4.8 11.73 1.2 40
     (if imageData.isSome then "FFFFFF" else theme.titleColor)] ++
  (if 0 < slideData.points.length then
    [SlideElem.bullets
       ((slideData.points.take 3).map (fun point => "â€¢ " ++ point))
       0.8 6.0 11.73 1.3 16
       (if imageData.isSome then "E2E8F0" else theme.textColor) false]
   else []) ++
  [SlideElem.shape "rect" 0.8 4.6 (Dim.len 3) (Dim.len 0.06) theme.accentColor none]

/-- `createSummarySlide`: gradient background, decorative ellipse, accent bar,
title, numbered points, bottom accent (the `imageData` argument is unused,
matching the source). -/
def createSummarySlide (slideData : SlideB) (_imageData : Option ImgData)
    (theme : Theme) (_index _totalSlides : Nat) : List SlideElem :=
  addGradientBackground theme ++
  [SlideElem.shape "ellipse" 10 (-1.5) (Dim.len 5) (Dim.len 5) theme.accentColor (some 90),
   SlideElem.shape "rect" 0 0 (Dim.len 0.12) (Dim.len 7.5) theme.accentColor none,
   SlideElem.text (if slideData.slideTitle.length = 0 then "Summary" else slideData.slideTitle)
     0.6 0.4 12 1.2 36 theme.titleColor,
   SlideElem.shape "rect" 0.6 1.5 (Dim.len 3) (Dim.len 0.06) theme.accentColor none,
   SlideElem.bullets slideData.points 0.6 1.9 12 5.0 18 theme.textColor true,
   SlideElem.shape "rect" 0 7.35 (Dim.len 13.33) (Dim.len 0.15) theme.accentColor none]

/-- `createGradientBackgroundSlide`: the no-image layout. -/
def createGradientBackgroundSlide (slideData : SlideB) (theme : Theme) (index : Nat) :
    List SlideElem :=
  addGradientBackground theme ++
  [SlideElem.shape "rect" 0 0 (Dim.len 13.33) (Dim.len 0.08) theme.accentColor none,
   SlideElem.shape "ellipse" 10.5 (-1) (Dim.len 4) (Dim.len 4) theme.secondaryAccent (some 88),
   SlideElem.text (slideTitleOr slideData index) 0.5 0.5 12.33 1.0 34 theme.titleColor,
   SlideElem.shape "rect" 0.5 1.5 (Dim.len 2.5) (Dim.len 0.05) theme.accentColor none,
   SlideElem.bullets slideData.points 0.5 1.8 12.33 5.2 18 theme.textColor false,
   SlideElem.shape "rect" 0 7.35 (Dim.len 13.33) (Dim.len 0.15) theme.accentColor none]

/-- The slide-number text `index + 2` added after every content slide. -/
def pageNumberElem (theme : Theme) (index : Nat) : SlideElem :=
  SlideElem.text (toString (index + 2)) 12.5 7.05 0.6 0.35 11 theme.textColor

/-- The title slide of `generatePowerPoint`: full background image with overlays
when the first slide image downloaded, otherwise gradient plus circle accent;
then accent line, main title, date line and bottom accent bar. -/
def mkTitleSlide (theme : Theme) (title : String) (titleImageData : Option ImgData)
    (today : String) : List SlideElem :=
  (match titleImageData with
   | some img =>
     [SlideElem.image (imgDataUri img) 0 0 13.33 7.5,
      SlideElem.shape "rect" 0 0 (Dim.len 13.33) (Dim.len 7.5) theme.overlayColor (some 35),
      SlideElem.shape "rect" 0 4.5 (Dim.len 13.33) (Dim.len 3) "000000" (some 60)]
   | none => addGradientBackground theme ++ addAccentShapes theme "circle") ++
  [SlideElem.shape "rect" 4.67 2.8 (Dim.len 4) (Dim.len 0.06) theme.accentColor none,
   SlideElem.text (if title.length = 0 then "Untitled Presentation" else title)
     0.8 3.0 11.73 1.5 48 (if titleImageData.isSome then "FFFFFF" else theme.titleColor),
   SlideElem.text today 0.8 4.8 11.73 0.6 18
     (if titleImageData.isSome then "E2E8F0" else theme.textColor),
   SlideElem.shape "rect" 0 7.35 (Dim.len 13.33) (Dim.len 0.15) theme.accentColor none]

/-- The closing Thank You slide appended after the content slides. -/
def mkThankYouSlide (theme : Theme) : List SlideElem :=
  addGradientBackground theme ++
  [SlideElem.shape "ellipse" (-2) (-2) (Dim.len 6) (Dim.len 6) theme.accentColor (some 90),
   SlideElem.shape "ellipse" 10 4 (Dim.len 5) (Dim.len 5) theme.secondaryAccent (some 85),
   SlideElem.text "Thank You!" 0.8 2.5 11.73 1.5 56 theme.titleColor,
   SlideElem.shape "rect" 5.17 4.2 (Dim.len 3) (Dim.len 0.08) theme.accentColor none,
   SlideElem.text "Questions & Discussion" 0.8 4.5 11.73 0.8 24 theme.textColor,
   SlideElem.shape "rect" 0 7.35 (Dim.len 13.33) (Dim.len 0.15) theme.accentColor none]

/-- The image download of the content loop: only attempted when
`slideData.imageUrl && slideData.imageUrl.length > 0`; `fetch` is the
`downloadImageAsBase64` oracle (it returns `none` on any failure or timeout). -/
def fetchFor (fetch : String → Option ImgData) (s : SlideB) : Option ImgData :=
  match s.imageUrl with
  | some u => if 0 < u.length then fetch u else none
  | none => none

/-- One iteration of the content-slide loop: dispatch on the selected layout
(the `switch` sends `GRADIENT_BACKGROUND` and every unlisted layout, including
`TITLE_FULL_IMAGE`, to the gradient slide via `default`), then append the
slide number. -/
def renderContentSlide (theme : Theme) (totalSlides index : Nat) (slideData : SlideB)
    (imageData : Option ImgData) : List SlideElem :=
  (match determineSlideLayout index totalSlides slideData with
   | SlideLayout.splitRightImage => createSplitRightImageSlide slideData imageData theme index
   | SlideLayout.splitLeftImage => createSplitLeftImageSlide slideData imageData theme index
   | SlideLayout.conceptImageDominant =>
     createConceptDominantSlide slideData imageData theme index
   | SlideLayout.summaryClean =>
     createSummarySlide slideData imageData theme index totalSlides
   | _ => createGradientBackgroundSlide slideData theme index) ++
  [pageNumberElem theme index]

/-- The content-slide loop over the deck, carrying the running index. -/
def renderContentSlides (theme : Theme) (fetch : String → Option ImgData)
    (totalSlides : Nat) : Nat → List SlideB → List (List SlideElem)
  | _, [] => []
  | index, s :: rest =>
    renderContentSlide theme totalSlides index s (fetchFor fetch s) ::
    renderContentSlides theme fetch totalSlides (index + 1) rest

/-- `generatePowerPoint(presentationData, themeName)` from the premium exporter,
modelled as the ordered list of rendered slides (one element list per slide of
the binary container): title slide, one slide per deck slide, closing slide.
`fetch` is the image-download oracle and `today` the formatted date string. -/
def generatePowerPoint (pres : Presentation) (themeName : String)
    (fetch : String → Option ImgData) (today : String) :
    Except String (List (List SlideElem)) :=
  match resolveThemeJs themeName with
  | Except.error e => Except.error e
  | Except.ok theme =>
    let totalSlides := pres.slides.length
    let firstSlideImage := pres.slides.head?.bind (fun s => s.imageUrl)
    let titleImageData :=
      match firstSlideImage with
      | some u => if 0 < u.length then fetch u else none
      | none => none
    Except.ok
      (mkTitleSlide theme pres.title titleImageData today ::
       renderContentSlides theme fetch totalSlides 0 pres.slides ++
       [mkThankYouSlide theme])

/-- Outcome of a generation endpoint: the strict-JSON success payload or the
`AppError` handed to `next` (HTTP status plus message). -/
inductive GenResult where
  | success (title : String) (slides : List SlideB)
  | httpError (status : Nat) (msg : String)
deriving DecidableEq, Repr

/-- `generateFromText` (generateController.js): input validation, slide-count
clamp, one generative call (`ai`, keyed by the clamped count, returning the
parsed presentation or the thrown error message), 500 error on failure. -/
def generateFromText (text : String) (slideCountRaw : Option Int)
    (ai : Int → Except String Presentation) : GenResult :=
  if (jsTrim text.toList).length = 0 then
    GenResult.httpError 400 "Please provide text content"
  else if text.length < 50 then
    GenResult.httpError 400 "Text content is too short. Please provide at least 50 characters."
  else if 50000 < text.length then
    GenResult.httpError 400 "Text content is too long. Maximum 50,000 characters allowed."
  else
    let slides := validateSlideCount slideCountRaw
    match ai slides with
    | Except.ok p => GenResult.success p.title p.slides
    | Except.error msg =>
      GenResult.httpError 500 ("Failed to generate presentation: " ++ msg)

/-- `generateFromPDF` (generateController.js), from the extracted text onward:
clean the text, reject short content, then either the AI path with a fallback
to `textToBasicSlides` on failure, or the direct basic-slides path with the
optional PDF metadata title. -/
def generateFromPDF (extractedText : String) (pdfTitle : Option String)
    (slideCountRaw : Option Int) (enhanceWithAI : Bool)
    (ai : Int → Except String Presentation) : GenResult :=
  let cleanedText := cleanExtractedText extractedText
  if cleanedText.length < 50 then
    GenResult.httpError 400 "PDF contains insufficient text content"
  else
    let slides := validateSlideCount slideCountRaw
    let presentation :=
      if enhanceWithAI then
        match ai slides with
        | Except.ok p => p
        | Except.error _ => textToBasicSlides cleanedText slides.toNat
      else
        let p := textToBasicSlides cleanedText slides.toNat
        match pdfTitle with
        | some t => if 0 < t.length then Presentation.mk t p.slides else p
        | none => p
    GenResult.success presentation.title presentation.slides

/-- No two adjacent characters satisfy `p` and `q` respectively. -/
def noAdjPair (p q : Char → Bool) : List Char → Bool
  | a :: b :: rest => (!(p a && q b)) && noAdjPair p q (b :: rest)
  | _ => true

/-- Newline character test. -/
def isNlCh (c : Char) : Bool := c == '\n'

/-- Plain space character test. -/
def isSpCh (c : Char) : Bool := c == ' '

/-- The premise of the idempotence claim as stated: the text contains no two
adjacent newlines and no two adjacent spaces. -/
def noRepeatedNlOrSp (l : List Char) : Bool :=
  noAdjPair isNlCh isNlCh l && noAdjPair isSpCh isSpCh l

/-- Whether the text contains a hyphen-broken word, i.e. an occurrence of the
pattern `(\w)-\n(\w)` that `hyphenFix` would rewrite. -/
def hasHyphenBreak : List Char → Bool
  | [] => false
  | [_] => false
  | [_, _] => false
  | [_, _, _] => false
  | a :: b :: c :: d :: rest =>
    if isWordChar a ∧ b = '-' ∧ c = '\n' ∧ isWordChar d then true
    else hasHyphenBreak (b :: c :: d :: rest)

/-- Fixed points of the cleaning pipeline: the claimed premise (no repeated
newlines or spaces) strengthened by exactly what the remaining cleaning rules
force — no tab, form-feed, carriage-return or vertical-tab characters, no
hyphen-broken line break, every line already trimmed, and the whole text
already trimmed. -/
def isCleanText (l : List Char) : Bool :=
  noAdjPair isNlCh isNlCh l && noAdjPair isSpCh isSpCh l &&
  l.all (fun c => !(c == '\t') && !(c == '\x0c') && !(c == '\r') && !(c == '\x0b')) &&
  (!hasHyphenBreak l) &&
  (splitNlL l).all (fun li => jsTrim li == li) &&
  (jsTrim l == l)

/-- Whether a rendered element embeds an image. -/
def isImageElem : SlideElem → Bool
  | SlideElem.image _ _ _ _ _ => true
  | _ => false

/-- Whether a rendered slide contains an embedded image. -/
def hasImageElem (l : List SlideElem) : Bool := l.any isImageElem

/-- Boolean success test for `Except`. -/
def exceptIsOk {ε α : Type} : Except ε α → Bool
  | Except.ok _ => true
  | Except.error _ => false

/-- A one-slide deck for the rendering boundary checks. -/
def oneSlideDeck : Presentation :=
  Presentation.mk "Solar Energy" [SlideB.mk "Overview" ["point one"] none none]

/-- A twenty-slide deck for the rendering boundary checks. -/
def twentySlideDeck : Presentation :=
  Presentation.mk "Networking Basics"
    (List.replicate 20 (SlideB.mk "Topic" ["point one", "point two"] none none))

/-- A content slide with a resolved image URL and four bullet points. -/
def c6Slide : SlideB :=
  SlideB.mk "Network Topologies" ["p1", "p2", "p3", "p4"] none
    (some "https://example.com/network.jpg")

/-- Valid generation-request text (at least 50 characters). -/
def c3Text : String :=
  "Quantum computing uses superposition and entanglement to process information in new ways."

/-- A fallback-builder input for the bounds witness (at least 50 characters). -/
def c4Text : String :=
  "The quick brown fox jumps over the lazy dog near the river bank today. Some more words follow here."

/-- A paragraph whose first sentence is 11-99 characters long. -/
def c8GroupPara : List Char :=
  "this title is long enough. and this point sentence is long enough".toList

/-- A minimal deck for the theme-lookup failing input. -/
def c7Deck : Presentation :=
  Presentation.mk "Deck" [SlideB.mk "Only" ["p"] none none]

/-- C1: per-slide layout selection is a pure function of (slide index, total
slide count, presence of a resolved image, bullet count) and follows the fixed
priority order of the specification (index 0 full-image-title, last index
clean-summary, image with at most 3 points image-dominant, image with more
points split-right on even and split-left on odd index, no image gradient
background); selecting twice with identical inputs yields the identical layout. -/
theorem determineSlideLayout_pure_policy :
    ∀ (index totalSlides : Nat) (s : SlideB),
      determineSlideLayout index totalSlides s
        = layoutPolicySpec index totalSlides (hasImageB s) s.points.length ∧
      determineSlideLayout index totalSlides s = determineSlideLayout index totalSlides s :=
  fun _ _ _ => ⟨rfl, rfl⟩

/-- Each deck slide yields exactly one rendered content slide. -/
theorem renderContentSlides_length (theme : Theme) (fetch : String → Option ImgData)
    (totalSlides : Nat) :
    ∀ (index : Nat) (ss : List SlideB),
      (renderContentSlides theme fetch totalSlides index ss).length = ss.length := by
  intro index ss
  induction ss generalizing index with
  | nil => rfl
  | cons s rest ih => simp [renderContentSlides, ih]

/-- C2: for every deck accepted by the renderer the output contains exactly
`deck.slides.length + 2` slides (title slide, one per content slide, closing
Thank-You slide); in particular a 1-slide deck renders to 3 slides and a
20-slide deck renders to 22. -/
theorem generatePowerPoint_slide_count :
    (∀ (pres : Presentation) (themeName : String) (fetch : String → Option ImgData)
       (today : String),
       (generatePowerPoint pres themeName fetch today).map List.length
         = (resolveThemeJs themeName).map (fun _ => pres.slides.length + 2)) ∧
    (generatePowerPoint oneSlideDeck "professional" (fun _ => none)
        "January 1, 2026").map List.length = Except.ok 3 ∧
    (generatePowerPoint twentySlideDeck "professional" (fun _ => none)
        "January 1, 2026").map List.length = Except.ok 22 := by
  have key : ∀ (pres : Presentation) (themeName : String) (fetch : String → Option ImgData)
      (today : String),
      (generatePowerPoint pres themeName fetch today).map List.length
        = (resolveThemeJs themeName).map (fun _ => pres.slides.length + 2) := by
    intro pres themeName fetch today
    unfold generatePowerPoint
    cases h : resolveThemeJs themeName with
    | error e => rfl
    | ok theme =>
      show Except.ok _ = Except.ok _
      simp only [List.length_cons, List.length_append, List.length_singleton,
        List.length_nil, renderContentSlides_length]
  refine ⟨key, ?_, ?_⟩
  · rw [key]; rfl
  · rw [key]; rfl

/-- C3 counterexample: on the text endpoint a generative failure is surfaced to
the end user as a 500 error instead of being recovered by the fallback builder. -/
theorem generateFromText_surfaces_ai_error :
    50 ≤ c3Text.length ∧
    generateFromText c3Text (some 5) (fun _ => Except.error "Gemini API Error: fetch failed")
      = GenResult.httpError 500
          "Failed to generate presentation: Gemini API Error: fetch failed" := by
  decide

/-- C3 amended: a generative failure is recovered locally by the deterministic
fallback builder only on the PDF (and URL) endpoints; on the text (and topic)
endpoints the failure is surfaced to the end user as a 500 error. -/
theorem ai_failure_handling_by_endpoint
    (extractedText : String) (pdfTitle : Option String) (slideCountRaw : Option Int)
    (err : String) (hpdf : 50 ≤ (cleanExtractedText extractedText).length)
    (text : String) (scRaw2 : Option Int) (err2 : String)
    (h1 : 0 < (jsTrim text.toList).length) (h2 : 50 ≤ text.length)
    (h3 : text.length ≤ 50000) :
    (generateFromPDF extractedText pdfTitle slideCountRaw true (fun _ => Except.error err)
       = GenResult.success
           (textToBasicSlides (cleanExtractedText extractedText)
             (validateSlideCount slideCountRaw).toNat).title
           (textToBasicSlides (cleanExtractedText extractedText)
             (validateSlideCount slideCountRaw).toNat).slides) ∧
    (generateFromText text scRaw2 (fun _ => Except.error err2)
       = GenResult.httpError 500 ("Failed to generate presentation: " ++ err2)) := by
  constructor
  · simp only [generateFromPDF]
    rw [if_neg (by omega)]
    simp
  · simp only [generateFromText]
    rw [if_neg (by omega), if_neg (by omega), if_neg (by omega)]

/-- Witness for the amended C3 theorem at concrete inputs. -/
theorem ai_failure_handling_by_endpoint_witness :
    (generateFromPDF c3Text none (some 4) true (fun _ => Except.error "boom")
       = GenResult.success
           (textToBasicSlides (cleanExtractedText c3Text)
             (validateSlideCount (some 4)).toNat).title
           (textToBasicSlides (cleanExtractedText c3Text)
             (validateSlideCount (some 4)).toNat).slides) ∧
    (generateFromText c3Text (some 5) (fun _ => Except.error "x")
       = GenResult.httpError 500 ("Failed to generate presentation: " ++ "x")) :=
  ai_failure_handling_by_endpoint c3Text none (some 4) "boom" (by decide)
    c3Text (some 5) "x" (by decide) (by decide) (by decide)

/-- C5 counterexample: the keyword fiber optic cables does not resolve to the
URL of the fiber table entry. -/
theorem fetchImageForSlide_fiber_not_fiber_entry :
    fetchImageForSlide "fiber optic cables"
      ≠ "https://images.unsplash.com/photo-1516044734145-07ca8eef8731?w=1920&h=1080&fit=crop&q=80" := by
  decide

/-- C5 amended: fiber optic cables deterministically resolves through the topic
table, but the first substring match in declaration order is the cable entry
(the keyword contains cable, which precedes fiber in the table), so the cable
URL is returned and the hash fallback pool is not consulted. -/
theorem fetchImageForSlide_fiber_matches_cable :
    imageMapping.find? (fun kv => strIncludes (jsToLower (cleanKeywordOf "fiber optic cables")) kv.1)
      = some ("cable",
          "https://images.unsplash.com/photo-1544197150-b99a580bb7a8?w=1920&h=1080&fit=crop&q=80") ∧
    fetchImageForSlide "fiber optic cables"
      = "https://images.unsplash.com/photo-1544197150-b99a580bb7a8?w=1920&h=1080&fit=crop&q=80" := by
  decide

/-- C10 counterexample: the requested slide count 0 is below 1 but is not
clamped to 1; the falsy check `parseInt(slideCount) || 5` turns it into the
default 5. -/
theorem validateSlideCount_zero_not_clamped_to_one :
    (0 : Int) < 1 ∧ validateSlideCount (some 0) = 5 ∧ validateSlideCount (some 0) ≠ 1 := by
  decide

/-- C10 amended: the requested slide count is never rejected: the result always
lies in [1,20]; missing or non-numeric values default to 5, and so does the
value 0 (falsy); values above 20 become 20, other values below 1 become 1, and
in-range values pass through unchanged. -/
theorem validateSlideCount_clamp :
    (∀ parsed : Option Int,
       1 ≤ validateSlideCount parsed ∧ validateSlideCount parsed ≤ 20) ∧
    validateSlideCount none = 5 ∧ validateSlideCount (some 0) = 5 ∧
    (∀ n : Int, 20 < n → validateSlideCount (some n) = 20) ∧
    (∀ n : Int, n < 1 → n ≠ 0 → validateSlideCount (some n) = 1) ∧
    (∀ n : Int, 1 ≤ n → n ≤ 20 → validateSlideCount (some n) = n) := by
  refine ⟨?_, by decide, by decide, ?_, ?_, ?_⟩
  · intro parsed
    cases parsed with
    | none => decide
    | some n =>
      simp only [validateSlideCount]
      split_ifs <;> constructor <;> omega
  · intro n h
    simp only [validateSlideCount]
    split_ifs <;> omega
  · intro n h1 h2
    simp only [validateSlideCount]
    split_ifs <;> omega
  · intro n h1 h2
    simp only [validateSlideCount]
    split_ifs <;> omega

/-- Witness for the amended C10 theorem at concrete inputs. -/
theorem validateSlideCount_clamp_witness :
    validateSlideCount (some 25) = 20 ∧ validateSlideCount (some (-3)) = 1 ∧
    validateSlideCount (some 7) = 7 :=
  ⟨validateSlideCount_clamp.2.2.2.1 25 (by decide),
   validateSlideCount_clamp.2.2.2.2.1 (-3) (by decide) (by decide),
   validateSlideCount_clamp.2.2.2.2.2 7 (by decide) (by decide)⟩

/-- The slide-building loop never produces more slides than its budget. -/
theorem slidesFromGroups_length_le :
    ∀ (gs : List (List (List Char))) (n r : Nat), (slidesFromGroups gs n r).length ≤ r := by
  intro gs
  induction gs with
  | nil => intro n r; simp [slidesFromGroups]
  | cons g gs ih =>
    intro n r
    simp only [slidesFromGroups]
    split_ifs with h0 hp
    · simp
    · exact le_trans (ih (n + 1) r) (le_refl r)
    · have := ih (n + 1) (r - 1)
      simp only [List.length_cons]
      omega

/-- The final guard of `textToBasicSlides`: at least one slide, at most the
budget. -/
theorem finalSlides_bounds (slides : List SlideB) (fallback : SlideB) (sc : Nat)
    (h1 : 1 ≤ sc) (h2 : slides.length ≤ sc) :
    1 ≤ (if slides.isEmpty then [fallback] else slides).length ∧
    (if slides.isEmpty then [fallback] else slides).length ≤ sc := by
  cases slides with
  | nil => simpa using h1
  | cons a l =>
    simp only [List.isEmpty_cons, if_neg]
    constructor
    · simp
    · simpa using h2

/-- C4: for every text input and slide count between 1 and 20, the text
fallback builder returns between 1 and `slideCount` slides (the single Content
Overview slide when segmentation yields nothing). -/
theorem textToBasicSlides_slide_count_bounds (text : String) (slideCount : Nat)
    (hsc1 : 1 ≤ slideCount) (hsc2 : slideCount ≤ 20)
    (hlen1 : 50 ≤ text.length) (hlen2 : text.length ≤ 50000) :
    1 ≤ (textToBasicSlides text slideCount).slides.length ∧
    (textToBasicSlides text slideCount).slides.length ≤ slideCount := by
  simp only [textToBasicSlides]
  exact finalSlides_bounds _ _ slideCount hsc1 (slidesFromGroups_length_le _ _ _)

/-- Witness for the C4 theorem at a concrete 99-character input. -/
theorem textToBasicSlides_slide_count_bounds_witness :
    1 ≤ (textToBasicSlides c4Text 5).slides.length ∧
    (textToBasicSlides c4Text 5).slides.length ≤ 5 :=
  textToBasicSlides_slide_count_bounds c4Text 5 (by decide) (by decide) (by decide) (by decide)

/-- C8 counterexample: a first sentence of exactly 10 characters lies in the
claimed 10-99 range, yet the produced slide title is the synthesized Section 1,
because the source requires the length to be strictly greater than 10. -/
theorem slide_title_ten_char_sentence_not_used :
    (("abcdefghij. this sentence is long enough to be a point.".toList.takeWhile
        (fun c => !isTermCh c)).length = 10) ∧
    ((textToBasicSlides "abcdefghij. this sentence is long enough to be a point." 5).slides.map
        SlideB.slideTitle = ["Section 1"]) ∧
    ("Section 1" ≠ "abcdefghij") := by
  decide

/-- C8 amended: for every paragraph group that yields a slide, the slide title
is the trimmed first sentence of the first paragraph when the untrimmed
sentence length is strictly between 10 and 100 characters (11-99), and the
synthesized Section title otherwise. -/
theorem slide_title_selection_rule (g : List (List Char)) (gs : List (List (List Char)))
    (n r : Nat) (hr : r ≠ 0) (hp : pointsForGroup g ≠ []) :
    (slidesFromGroups (g :: gs) n r).head? =
      some (SlideB.mk
        (if 10 < ((g.headD []).takeWhile (fun c => !isTermCh c)).length ∧
            ((g.headD []).takeWhile (fun c => !isTermCh c)).length < 100 then
          (jsTrim ((g.headD []).takeWhile (fun c => !isTermCh c))).asString
        else "Section " ++ toString n)
        (pointsForGroup g) none none) := by
  simp only [slidesFromGroups, titleForGroup]
  rw [if_neg hr]
  have hpe : (pointsForGroup g).isEmpty = false := by
    cases hq : pointsForGroup g with
    | nil => exact absurd hq hp
    | cons a l => rfl
  simp [hpe]

/-- Witness for the amended C8 theorem at a concrete paragraph group. -/
theorem slide_title_selection_rule_witness :
    pointsForGroup [c8GroupPara] ≠ [] ∧
    (slidesFromGroups [[c8GroupPara]] 1 5).head? =
      some (SlideB.mk
        (if 10 < (c8GroupPara.takeWhile (fun c => !isTermCh c)).length ∧
            (c8GroupPara.takeWhile (fun c => !isTermCh c)).length < 100 then
          (jsTrim (c8GroupPara.takeWhile (fun c => !isTermCh c))).asString
        else "Section " ++ toString 1)
        (pointsForGroup [c8GroupPara]) none none) :=
  ⟨by decide, slide_title_selection_rule [c8GroupPara] [] 1 5 (by decide) (by decide)⟩

/-- The adjacency predicate descends to the tail. -/
theorem noAdjPair_tail {p q : Char → Bool} {a : Char} {l : List Char}
    (h : noAdjPair p q (a :: l) = true) : noAdjPair p q l = true := by
  cases l with
  | nil => rfl
  | cons b rest =>
    simp only [noAdjPair, Bool.and_eq_true] at h
    exact h.2

/-- The adjacency predicate forbids a matching head pair. -/
theorem noAdjPair_head {p q : Char → Bool} {a b : Char} {l : List Char}
    (h : noAdjPair p q (a :: b :: l) = true) : (p a && q b) = false := by
  simp only [noAdjPair, Bool.and_eq_true, Bool.not_eq_true'] at h
  exact h.1

/-- A pending single newline flushes in front when the next character is not a
newline. -/
theorem collapseNlGo_one (l : List Char) (h : l.head? ≠ some '\n') :
    collapseNlGo 1 l = '\n' :: collapseNlGo 0 l := by
  cases l with
  | nil => rfl
  | cons c rest =>
    have hc : ¬ c = '\n' := by
      intro e
      exact h (by simp [e])
    simp [collapseNlGo, nlRun, hc]

/-- Newline-run collapsing is the identity on texts without adjacent newlines. -/
theorem collapseNlGo_zero_id : ∀ (l : List Char), noAdjPair isNlCh isNlCh l = true →
    collapseNlGo 0 l = l := by
  intro l
  induction l with
  | nil => intro _; rfl
  | cons c rest ih =>
    intro h
    by_cases hc : c = '\n'
    · subst hc
      simp only [collapseNlGo, if_pos rfl]
      have hhead : rest.head? ≠ some '\n' := by
        cases rest with
        | nil => simp
        | cons b rest2 =>
          have hb := noAdjPair_head (p := isNlCh) (q := isNlCh) h
          simp [isNlCh] at hb
          simp [hb]
      rw [collapseNlGo_one rest hhead, ih (noAdjPair_tail h)]
      simp
    · simp only [collapseNlGo, if_neg hc]
      rw [ih (noAdjPair_tail h)]
      rfl

/-- A pending space run flushes in front when the next character is not a
space or tab. -/
theorem collapseSpacesGo_true (l : List Char)
    (h : ∀ c, l.head? = some c → isSpaceTab c = false) :
    collapseSpacesGo true l = ' ' :: collapseSpacesGo false l := by
  cases l with
  | nil => rfl
  | cons c rest =>
    have hc : isSpaceTab c = false := h c rfl
    simp [collapseSpacesGo, spRun, hc]

/-- Space-run collapsing is the identity on texts without tabs and without
adjacent spaces. -/
theorem collapseSpacesGo_false_id : ∀ (l : List Char), (∀ c ∈ l, ¬ c = '\t') →
    noAdjPair isSpCh isSpCh l = true → collapseSpacesGo false l = l := by
  intro l
  induction l with
  | nil => intro _ _; rfl
  | cons c rest ih =>
    intro htab h
    by_cases hc : isSpaceTab c = true
    · have hcsp : c = ' ' := by
        have hct : ¬ c = '\t' := htab c (by simp)
        simp only [isSpaceTab, Bool.or_eq_true, beq_iff_eq] at hc
        rcases hc with h1 | h1
        · exact h1
        · exact absurd h1 hct
      subst hcsp
      simp only [collapseSpacesGo, if_pos hc]
      have hhead : ∀ d, rest.head? = some d → isSpaceTab d = false := by
        cases rest with
        | nil => intro d hd; simp at hd
        | cons b rest2 =>
          intro d hd
          simp only [List.head?_cons, Option.some.injEq] at hd
          have hb := noAdjPair_head (p := isSpCh) (q := isSpCh) h
          have hbt : ¬ b = '\t' := htab b (by simp)
          have hbs : ¬ b = ' ' := by
            intro e
            simp [isSpCh, e] at hb
          subst hd
          simp [isSpaceTab, hbs, hbt]
      rw [collapseSpacesGo_true rest hhead]
      rw [ih (fun d hd => htab d (by simp [hd])) (noAdjPair_tail h)]
    · simp only [collapseSpacesGo, if_neg hc]
      rw [ih (fun d hd => htab d (by simp [hd])) (noAdjPair_tail h)]
      rfl

/-- Hyphen rejoining is the identity on texts without a hyphen-broken word. -/
theorem hyphenFix_id : ∀ (l : List Char), hasHyphenBreak l = false → hyphenFix l = l
  | [], _ => rfl
  | [_], _ => rfl
  | [_, _], _ => rfl
  | [_, _, _], _ => rfl
  | a :: b :: c :: d :: rest, h => by
    have hcond : ¬ (isWordChar a = true ∧ b = '-' ∧ c = '\n' ∧ isWordChar d = true) := by
      intro hc
      simp only [hasHyphenBreak, if_pos hc] at h
      exact Bool.noConfusion h
    have htail : hasHyphenBreak (b :: c :: d :: rest) = false := by
      simp only [hasHyphenBreak, if_neg hcond] at h
      exact h
    simp only [hyphenFix, if_neg hcond]
    rw [hyphenFix_id (b :: c :: d :: rest) htail]

/-- Form-feed expansion is the identity on texts without form feeds. -/
theorem formFeedFix_id : ∀ (l : List Char), (∀ c ∈ l, ¬ c = '\x0c') → formFeedFix l = l := by
  intro l
  induction l with
  | nil => intro _; rfl
  | cons c rest ih =>
    intro h
    have hc : ¬ c = '\x0c' := h c (by simp)
    simp only [formFeedFix, if_neg hc]
    rw [ih (fun d hd => h d (by simp [hd]))]

/-- Splitting on newlines never yields the empty chunk list. -/
theorem splitNlL_ne_nil : ∀ (l : List Char), splitNlL l ≠ [] := by
  intro l
  cases l with
  | nil => simp [splitNlL]
  | cons c rest =>
    simp only [splitNlL]
    split_ifs
    · simp
    · cases h : splitNlL rest with
      | nil => simp [consHead]
      | cons x xs => simp [consHead]

/-- Joining after a head-cons prepends the character. -/
theorem joinNl_consHead (c : Char) (s : List (List Char)) (hs : s ≠ []) :
    joinNl (consHead c s) = c :: joinNl s := by
  cases s with
  | nil => exact absurd rfl hs
  | cons l ls =>
    cases ls with
    | nil => rfl
    | cons l2 ls2 => rfl

/-- Joining the newline split restores the text. -/
theorem joinNl_splitNlL : ∀ (l : List Char), joinNl (splitNlL l) = l := by
  intro l
  induction l with
  | nil => rfl
  | cons c rest ih =>
    by_cases hc : c = '\n'
    · subst hc
      simp only [splitNlL, if_pos rfl]
      cases h : splitNlL rest with
      | nil => exact absurd h (splitNlL_ne_nil rest)
      | cons x xs =>
        show joinNl ([] :: x :: xs) = '\n' :: rest
        simp only [joinNl]
        rw [← h, ih]
        rfl
    · simp only [splitNlL, if_neg hc]
      rw [joinNl_consHead c (splitNlL rest) (splitNlL_ne_nil rest), ih]

/-- Mapping a function that fixes every member is the identity. -/
theorem map_fixed_id (f : List Char → List Char) :
    ∀ (ls : List (List Char)), (∀ x ∈ ls, f x = x) → ls.map f = ls := by
  intro ls
  induction ls with
  | nil => intro _; rfl
  | cons x xs ih =>
    intro h
    simp only [List.map_cons]
    rw [h x (by simp), ih (fun y hy => h y (by simp [hy]))]

/-- The cleaning pipeline fixes every clean text (in the `isCleanText` sense). -/
theorem cleanChars_id (l : List Char) (h : isCleanText l = true) : cleanChars l = l := by
  simp only [isCleanText, Bool.and_eq_true] at h
  obtain ⟨⟨⟨⟨⟨hnl, hsp⟩, hchars⟩, hhb⟩, hlines⟩, htrim⟩ := h
  have hchars2 := List.all_eq_true.mp hchars
  have htab : ∀ c ∈ l, ¬ c = '\t' := by
    intro c hc
    have := hchars2 c hc
    simp only [Bool.and_eq_true, Bool.not_eq_true', beq_eq_false_iff_ne, ne_eq] at this
    exact this.1.1.1
  have hff : ∀ c ∈ l, ¬ c = '\x0c' := by
    intro c hc
    have := hchars2 c hc
    simp only [Bool.and_eq_true, Bool.not_eq_true', beq_eq_false_iff_ne, ne_eq] at this
    exact this.1.1.2
  have hhb2 : hasHyphenBreak l = false := by
    simp only [Bool.not_eq_true'] at hhb
    exact hhb
  have hlines2 : ∀ x ∈ splitNlL l, jsTrim x = x := by
    intro x hx
    have := List.all_eq_true.mp hlines x hx
    simpa using this
  have htrim2 : jsTrim l = l := by simpa using htrim
  unfold cleanChars collapseNl collapseSpaces
  rw [collapseNlGo_zero_id l hnl, collapseSpacesGo_false_id l htab hsp,
    hyphenFix_id l hhb2, formFeedFix_id l hff,
    map_fixed_id jsTrim (splitNlL l) hlines2, joinNl_splitNlL l, htrim2]

/-- C9 counterexample: the input `a-\nb` has no repeated newlines or spaces,
yet cleaning rewrites it (to `ab`) via the hyphen-rejoin rule, so cleaning is
not the identity on all such inputs. -/
theorem cleanExtractedText_changes_clean_input :
    noRepeatedNlOrSp "a-\nb".toList = true ∧
    cleanExtractedText "a-\nb" ≠ "a-\nb" := by
  decide

/-- C9 amended: cleaning returns the input unchanged for every text with no
repeated newlines or spaces that additionally contains no tab, form-feed,
carriage-return or vertical-tab characters and no hyphen-broken line break,
whose lines are all trimmed, and which is trimmed as a whole. -/
theorem cleanExtractedText_fixed_point (t : String) (h : isCleanText t.toList = true) :
    cleanExtractedText t = t := by
  unfold cleanExtractedText
  rw [cleanChars_id t.toList h]
  cases t
  rfl

/-- Witness for the amended C9 theorem at a concrete clean input. -/
theorem cleanExtractedText_fixed_point_witness :
    isCleanText "Solar energy systems.\nThey convert sunlight into power.".toList = true ∧
    cleanExtractedText "Solar energy systems.\nThey convert sunlight into power."
      = "Solar energy systems.\nThey convert sunlight into power." :=
  ⟨by decide, cleanExtractedText_fixed_point _ (by decide)⟩

/-- C6 counterexample: a slide whose image fetch fails is not rendered with the
gradient-background-bullets treatment; it keeps its selected split layout with
the image omitted (an even-index middle slide with an image URL, four points,
and a failing download oracle renders differently from the gradient slide). -/
theorem failed_image_fetch_not_gradient_layout :
    hasImageB c6Slide = true ∧
    fetchFor (fun _ => none) c6Slide = none ∧
    determineSlideLayout 2 4 c6Slide = SlideLayout.splitRightImage ∧
    renderContentSlide professionalTheme 4 2 c6Slide (fetchFor (fun _ => none) c6Slide)
      ≠ createGradientBackgroundSlide c6Slide professionalTheme 2 ++
          [pageNumberElem professionalTheme 2] := by
  decide

/-- The gradient background never embeds an image. -/
theorem addGradientBackground_no_image (theme : Theme) :
    (addGradientBackground theme).any isImageElem = false := by
  cases hb : theme.background <;> simp [addGradientBackground, hb, isImageElem]

/-- C6 amended: when the image fetch fails or times out (the download oracle
yields none), the rendered slide keeps its selected layout but contains no
embedded image element, and the whole-deck render still completes; image
unavailability is never fatal. -/
theorem failed_image_fetch_omits_image :
    (∀ (theme : Theme) (totalSlides index : Nat) (s : SlideB),
       hasImageElem (renderContentSlide theme totalSlides index s none) = false) ∧
    (∀ (pres : Presentation) (fetch : String → Option ImgData) (today : String),
       exceptIsOk (generatePowerPoint pres "professional" fetch today) = true) := by
  constructor
  · intro theme n i s
    unfold renderContentSlide hasImageElem
    cases determineSlideLayout i n s <;>
      simp [createSplitRightImageSlide, createSplitLeftImageSlide,
        createConceptDominantSlide, createSummarySlide, createGradientBackgroundSlide,
        pageNumberElem, isImageElem, addGradientBackground_no_image]
  · intro pres fetch today
    rfl

/-- C7: evidence for the code bug in theme resolution.  An ordinary unknown
name falls back to the professional default as specified, but a name inherited
from `Object.prototype` (such as constructor) skips the `||` fallback and makes
the render raise instead of succeeding with the default theme. -/
theorem generatePowerPoint_constructor_theme_error :
    resolveThemeJs "nonexistent" = Except.ok professionalTheme ∧
    (∀ (fetch : String → Option ImgData) (today : String),
       (generatePowerPoint c7Deck "nonexistent" fetch today).map List.length = Except.ok 3) ∧
    resolveThemeJs "constructor"
      = Except.error "TypeError: Cannot read properties of undefined (reading type)" ∧
    generatePowerPoint c7Deck "constructor" (fun _ => none) "January 1, 2026"
      = Except.error "TypeError: Cannot read properties of undefined (reading type)" := by
  refine ⟨rfl, ?_, rfl, rfl⟩
  intro fetch today
  rfl
